import Mathlib

/-!
Verification of the similarity-search core of this repository
(src/busca_similaridade.py) against its design document.

The Python code is shallowly embedded: numpy float arrays become lists of
real numbers (real arithmetic is the idealization of the float arithmetic
that the design's tolerance clauses refer to), Python strings become lists
of characters, the fallible loader becomes an Except/Option-valued
function, and the two external collaborators (the sentence-transformer
model and the FAISS flat inner-product index) appear respectively as an
explicit function parameter and as a definition modelled from the design
document's contract for it.
-/

/-- Python str.strip, as used on the raw query text: drop leading and
trailing whitespace from a string modelled as a list of characters. -/
def strip (s : List Char) : List Char :=
  ((s.dropWhile Char.isWhitespace).reverse.dropWhile Char.isWhitespace).reverse

/-- np.dot on two one-dimensional arrays: the sum of pointwise products. -/
def dot (a b : List ℝ) : ℝ :=
  (List.zipWith (fun x y => x * y) a b).sum

/-- Sum of the squares of the entries of a row. -/
def somaQuadrados (v : List ℝ) : ℝ :=
  (v.map (fun x => x * x)).sum

/-- np.linalg.norm of one row: the L2 norm, the square root of the sum of
squares. -/
noncomputable def norma2 (v : List ℝ) : ℝ :=
  Real.sqrt (somaQuadrados v)

/-- One row of BuscadorSimilaridade.normalizar_embeddings, and equally the
per-operand division in calcular_similaridade_cosseno: divide the vector by
its own L2 norm.  The Python reference does not guard a zero norm: numpy
divides anyway and propagates the resulting artifact instead of raising an
error.  This embedding keeps the division unguarded as well; the field
convention x / 0 = 0 stands in for the propagated artifact, the essential
shared fact being that no error is surfaced and the output of a zero-norm
row is not a unit vector. -/
noncomputable def normalizar_linha (v : List ℝ) : List ℝ :=
  v.map (fun x => x / norma2 v)

/-- BuscadorSimilaridade.normalizar_embeddings: divide every row of the
matrix by that row's L2 norm (numpy axis=1 with keepdims). -/
noncomputable def normalizar_embeddings (m : List (List ℝ)) : List (List ℝ) :=
  m.map normalizar_linha

/-- BuscadorSimilaridade.calcular_similaridade_cosseno: normalize both
embeddings and take their inner product. -/
noncomputable def calcular_similaridade_cosseno (embedding1 embedding2 : List ℝ) : ℝ :=
  dot (normalizar_linha embedding1) (normalizar_linha embedding2)

/-- BuscadorSimilaridade.criar_indice_faiss: the flat inner-product index
holds exactly the normalized rows of the collection, in insertion order. -/
noncomputable def criar_indice_faiss (embeddings : List (List ℝ)) : List (List ℝ) :=
  normalizar_embeddings embeddings

/-- Comparison placing (index, score) pairs in descending score order,
equal scores resolved by ascending insertion index. -/
noncomputable def precede (a b : ℕ × ℝ) : Bool :=
  decide (b.2 < a.2 ∨ (a.2 = b.2 ∧ a.1 ≤ b.1))

/-- Modelled from the spec: faiss.IndexFlatIP.search is an external library
call whose code is not part of this repository.  Per the design document
the flat index is exact and brute force: it computes the inner product of
the query against every stored vector, pairs each score with the insertion
index of its vector, and returns the min(k, N) largest in descending score
order with ties broken by insertion order. -/
noncomputable def index_search (armazenados : List (List ℝ)) (consulta : List ℝ)
    (k : ℕ) : List (ℕ × ℝ) :=
  (((armazenados.map (fun v => dot consulta v)).enum).mergeSort precede).take k

/-- BuscadorSimilaridade.buscar_similares with the query embedding already
computed: normalize the query embedding, then search the index. -/
noncomputable def buscar_por_vetor (consultaEmbedding : List ℝ)
    (indice : List (List ℝ)) (k : ℕ) : List (ℕ × ℝ) :=
  index_search indice (normalizar_linha consultaEmbedding) k

/-- BuscadorSimilaridade.buscar_similares: encode the query text with the
sentence-transformer model (the model being an external collaborator, it is
passed in as a function), normalize the query embedding, and search the
index for the k most similar items. -/
noncomputable def buscar_similares (encode : List Char → List ℝ)
    (query : List Char) (indice : List (List ℝ)) (k : ℕ) : List (ℕ × ℝ) :=
  buscar_por_vetor (encode query) indice k

/-- The fields of the FAQ transport document that modo_faq reads. -/
structure DadosFaq where
  embeddings : List (List ℝ)
  perguntas : List (List Char)
  respostas : List (List Char)
  fontes : List (List Char)

/-- The fields of the film transport document that modo_filmes reads. -/
structure DadosFilmes where
  embeddings : List (List ℝ)
  titulos : List (List Char)
  descricoes : List (List Char)

/-- BuscadorSimilaridade.modo_faq, query phase: build the index, strip the
typed query, and reject a blank query before the model or the index search
is ever invoked (the early return with its warning is modelled as none);
otherwise search with the fixed k = 3. -/
noncomputable def modo_faq (encode : List Char → List ℝ) (dados : DadosFaq)
    (entrada : List Char) : Option (List (ℕ × ℝ)) :=
  let indice := criar_indice_faiss dados.embeddings
  let query := strip entrada
  if query = [] then none
  else some (buscar_similares encode query indice 3)

/-- BuscadorSimilaridade.modo_filmes, query phase: as modo_faq but ranking
the whole collection, k = the number of titles. -/
noncomputable def modo_filmes (encode : List Char → List ℝ) (dados : DadosFilmes)
    (entrada : List Char) : Option (List (ℕ × ℝ)) :=
  let indice := criar_indice_faiss dados.embeddings
  let query := strip entrada
  if query = [] then none
  else some (buscar_similares encode query indice dados.titulos.length)

/-- Inner loop of BuscadorSimilaridade.modo_anomalias for item i: the
cosine similarity of item i against every other item j with j distinct
from i, in index order. -/
noncomputable def similaridades_item (embeddings : List (List ℝ)) (i : ℕ) : List ℝ :=
  ((List.range embeddings.length).filter (fun j => i ≠ j)).map
    (fun j => calcular_similaridade_cosseno (embeddings.getD i []) (embeddings.getD j []))

/-- np.mean: the sum divided by the length.  (On an empty list numpy yields
NaN, here the convention gives 0; modo_anomalias only averages nonempty
lists once the collection has at least two items.) -/
noncomputable def media (xs : List ℝ) : ℝ :=
  xs.sum / xs.length

/-- BuscadorSimilaridade.modo_anomalias, scoring phase: for every item the
pair (index, mean similarity to all the other items). -/
noncomputable def scores_medios (embeddings : List (List ℝ)) : List (ℕ × ℝ) :=
  (List.range embeddings.length).map (fun i => (i, media (similaridades_item embeddings i)))

/-- Ascending comparison on the mean-similarity component; Python
list.sort with a key is a stable ascending sort. -/
noncomputable def menorScore (a b : ℕ × ℝ) : Bool :=
  decide (a.2 ≤ b.2)

/-- BuscadorSimilaridade.modo_anomalias, ranking phase: sort ascending by
mean similarity, lowest mean first (most anomalous first). -/
noncomputable def scores_ordenados (embeddings : List (List ℝ)) : List (ℕ × ℝ) :=
  (scores_medios embeddings).mergeSort menorScore

/-- BuscadorSimilaridade.modo_anomalias, selection phase: the printed
header advertises a top 5, but the slice scores_medios[:3] keeps only the
3 items of lowest mean similarity. -/
noncomputable def modo_anomalias (embeddings : List (List ℝ)) : List (ℕ × ℝ) :=
  (scores_ordenados embeddings).take 3

/-- The transport document as json.load delivers it to carregar_embeddings:
the total field and, when the key is present, the raw nested list under
the embeddings key (possibly ragged). -/
structure Documento where
  total : ℤ
  embeddings : Option (List (List ℝ))

/-- Outcome of opening and parsing the file at the given path: the file may
be absent or unreadable, its text may fail to parse as JSON, or a parsed
document comes back. -/
inductive Transporte where
  | ausente
  | malformado
  | documento (doc : Documento)

/-- The errors the body of carregar_embeddings can raise: file-system
error on open, JSON decoding error, missing embeddings key, and numpy
conversion error on a ragged nested list. -/
inductive ErroCarga where
  | arquivoInexistente
  | jsonInvalido
  | chaveAusente
  | conversaoInvalida

/-- The dictionary carregar_embeddings returns on success: the parsed
fields with the embeddings entry replaced by the converted float32
matrix. -/
structure Dados where
  total : ℤ
  embeddings : List (List ℝ)

/-- np.array(linhas, dtype=np.float32): succeeds exactly when the nested
lists form a rectangular matrix; a ragged nested list raises ValueError,
modelled as none. -/
def paraMatriz (linhas : List (List ℝ)) : Option (List (List ℝ)) :=
  match linhas with
  | [] => some []
  | l :: ls => if ls.all (fun r => r.length == l.length) then some (l :: ls) else none

/-- The body of the try block of BuscadorSimilaridade.carregar_embeddings:
open the file, parse the JSON, read the embeddings key and convert it to a
float32 matrix; each step can raise.  No step compares the total field
with the number of embedding rows. -/
def corpoCarregar (t : Transporte) : Except ErroCarga Dados :=
  match t with
  | .ausente => .error .arquivoInexistente
  | .malformado => .error .jsonInvalido
  | .documento doc =>
    match doc.embeddings with
    | none => .error .chaveAusente
    | some linhas =>
      match paraMatriz linhas with
      | none => .error .conversaoInvalida
      | some matriz => .ok ⟨doc.total, matriz⟩

/-- BuscadorSimilaridade.carregar_embeddings: the body wrapped in the
catch-all except clause, which prints the error and returns None. -/
def carregar_embeddings (t : Transporte) : Option Dados :=
  match corpoCarregar t with
  | .ok dados => some dados
  | .error _ => none

/-! Helper lemmas about the L2 norm and normalization. -/

theorem somaQuadrados_nonneg (v : List ℝ) : 0 ≤ somaQuadrados v := by
  apply List.sum_nonneg
  intro x hx
  rcases List.mem_map.mp hx with ⟨y, _, rfl⟩
  exact mul_self_nonneg y

theorem norma2_nonneg (v : List ℝ) : 0 ≤ norma2 v :=
  Real.sqrt_nonneg _

theorem sq_norma2 (v : List ℝ) : norma2 v ^ 2 = somaQuadrados v :=
  Real.sq_sqrt (somaQuadrados_nonneg v)

theorem somaQuadrados_map_div (v : List ℝ) (c : ℝ) :
    somaQuadrados (v.map (fun x => x / c)) = somaQuadrados v / c ^ 2 := by
  induction v with
  | nil => simp [somaQuadrados]
  | cons x xs ih =>
    simp only [somaQuadrados, List.map_cons, List.sum_cons] at ih ⊢
    rw [ih, div_mul_div_comm, pow_two, add_div]

theorem somaQuadrados_map_mul (v : List ℝ) (c : ℝ) :
    somaQuadrados (v.map (fun x => c * x)) = c ^ 2 * somaQuadrados v := by
  induction v with
  | nil => simp [somaQuadrados]
  | cons x xs ih =>
    simp only [somaQuadrados, List.map_cons, List.sum_cons] at ih ⊢
    rw [ih, mul_mul_mul_comm, pow_two, mul_add]

theorem somaQuadrados_eq_zero_of_norma2_eq_zero (v : List ℝ) (h : norma2 v = 0) :
    somaQuadrados v = 0 := by
  have := sq_norma2 v
  rw [h] at this
  simpa using this.symm

theorem norma2_normalizar_linha (v : List ℝ) (h : norma2 v ≠ 0) :
    norma2 (normalizar_linha v) = 1 := by
  have hsq : somaQuadrados v ≠ 0 := fun hz => h (by simp [norma2, hz])
  unfold norma2 normalizar_linha
  rw [somaQuadrados_map_div, sq_norma2, div_self hsq, Real.sqrt_one]

theorem norma2_map_mul (v : List ℝ) (c : ℝ) (hc : 0 ≤ c) :
    norma2 (v.map (fun x => c * x)) = c * norma2 v := by
  unfold norma2
  rw [somaQuadrados_map_mul, Real.sqrt_mul (by positivity), Real.sqrt_sq hc]

theorem normalizar_linha_map_mul (v : List ℝ) (c : ℝ) (hc : 0 < c) :
    normalizar_linha (v.map (fun x => c * x)) = normalizar_linha v := by
  unfold normalizar_linha
  rw [norma2_map_mul v c hc.le, List.map_map]
  apply List.map_congr_left
  intro x _
  exact mul_div_mul_left x (norma2 v) hc.ne'

/-! Claim theorems about error handling in normalization and loading. -/

/-- C5: the reference normalization does not fail on a zero-norm vector.
At the all-zero vector the norm is 0, no error is raised, the division is
performed anyway, and the returned row is the propagated artifact (here the
zero row, which is not a unit vector). -/
theorem zero_norm_nao_guardado :
    norma2 [(0 : ℝ), 0] = 0 ∧
    normalizar_embeddings [[(0 : ℝ), 0]] = [[0, 0]] ∧
    norma2 (normalizar_linha [(0 : ℝ), 0]) ≠ 1 := by
  have h0 : norma2 [(0 : ℝ), 0] = 0 := by simp [norma2, somaQuadrados]
  have h1 : normalizar_linha [(0 : ℝ), 0] = [0, 0] := by
    simp [normalizar_linha, h0]
  refine ⟨h0, by simp [normalizar_embeddings, h1], ?_⟩
  rw [h1, h0]
  norm_num

/-- C6: a query that strips to the empty string is rejected by both query
modes before any work is done: for every embedding provider the result is
the empty-query outcome (none) and no search is performed. -/
theorem consulta_vazia_rejeitada (encode : List Char → List ℝ)
    (dadosFaq : DadosFaq) (dadosFilmes : DadosFilmes) (entrada : List Char)
    (h : strip entrada = []) :
    modo_faq encode dadosFaq entrada = none ∧
    modo_filmes encode dadosFilmes entrada = none := by
  constructor <;> simp [modo_faq, modo_filmes, h]

/-- Witness for C6 at the concrete whitespace-only input made of two
spaces, an arbitrary stub provider and empty collections. -/
theorem consulta_vazia_rejeitada_witness :
    strip [' ', ' '] = [] ∧
    (modo_faq (fun _ => []) ⟨[], [], [], []⟩ [' ', ' '] = none ∧
     modo_filmes (fun _ => []) ⟨[], [], []⟩ [' ', ' '] = none) :=
  ⟨by decide,
   consulta_vazia_rejeitada (fun _ => []) ⟨[], [], [], []⟩ ⟨[], [], []⟩ [' ', ' '] (by decide)⟩

/-- C7 counterexample: a transport document whose total field says 3 while
its embeddings key holds only 2 rows loads successfully; the length/shape
invariant is never checked, so no load error is surfaced before queries. -/
theorem invariante_total_nao_verificado :
    carregar_embeddings (Transporte.documento ⟨3, some [[1, 0], [0, 1]]⟩)
      = some ⟨3, [[1, 0], [0, 1]]⟩ ∧
    ([[(1 : ℝ), 0], [0, 1]] : List (List ℝ)).length ≠ 3 :=
  ⟨rfl, by decide⟩

/-- C7 amended: a missing or unparsable transport document does make the
loader fail before any query executes — the caught exception is surfaced
as the None sentinel, aborting the session without crashing; only the
length/shape invariant goes unchecked. -/
theorem carga_ausente_ou_malformada_falha (t : Transporte)
    (h : t = Transporte.ausente ∨ t = Transporte.malformado) :
    carregar_embeddings t = none := by
  rcases h with h | h <;> subst h <;> rfl

/-- Witness for the amended C7 at the concrete missing-file outcome. -/
theorem carga_ausente_ou_malformada_falha_witness :
    (Transporte.ausente = Transporte.ausente ∨
      Transporte.ausente = Transporte.malformado) ∧
    carregar_embeddings Transporte.ausente = none :=
  ⟨Or.inl rfl, carga_ausente_ou_malformada_falha Transporte.ausente (Or.inl rfl)⟩

/-- C9: the loader is total over its error cases.  Whatever the body of the
try block does — succeed with the parsed dictionary carrying the converted
matrix, or raise at any step — the catch-all clause turns the outcome into
either that dictionary or None; no exception propagates to the caller. -/
theorem carregar_embeddings_total (t : Transporte) :
    (∃ dados, corpoCarregar t = Except.ok dados ∧
      carregar_embeddings t = some dados) ∨
    (∃ erro, corpoCarregar t = Except.error erro ∧
      carregar_embeddings t = none) := by
  cases h : corpoCarregar t with
  | ok dados => exact Or.inl ⟨dados, rfl, by simp [carregar_embeddings, h]⟩
  | error erro => exact Or.inr ⟨erro, rfl, by simp [carregar_embeddings, h]⟩

/-! Helper lemmas about the comparison functions and the index search. -/

theorem precede_trans (a b c : ℕ × ℝ) (hab : precede a b) (hbc : precede b c) :
    precede a c := by
  simp only [precede, decide_eq_true_eq] at hab hbc ⊢
  rcases hab with h1 | ⟨h1, h1'⟩ <;> rcases hbc with h2 | ⟨h2, h2'⟩
  · exact Or.inl (lt_trans h2 h1)
  · exact Or.inl (by rw [← h2]; exact h1)
  · exact Or.inl (by rw [h1]; exact h2)
  · exact Or.inr ⟨h1.trans h2, le_trans h1' h2'⟩

theorem precede_total (a b : ℕ × ℝ) : precede a b || precede b a := by
  simp only [precede, Bool.or_eq_true, decide_eq_true_eq]
  rcases lt_trichotomy a.2 b.2 with h | h | h
  · exact Or.inr (Or.inl h)
  · rcases Nat.le_total a.1 b.1 with h' | h'
    · exact Or.inl (Or.inr ⟨h, h'⟩)
    · exact Or.inr (Or.inr ⟨h.symm, h'⟩)
  · exact Or.inl (Or.inl h)

theorem menorScore_trans (a b c : ℕ × ℝ) (hab : menorScore a b) (hbc : menorScore b c) :
    menorScore a c := by
  simp only [menorScore, decide_eq_true_eq] at hab hbc ⊢
  exact le_trans hab hbc

theorem menorScore_total (a b : ℕ × ℝ) : menorScore a b || menorScore b a := by
  simp only [menorScore, Bool.or_eq_true, decide_eq_true_eq]
  exact le_total a.2 b.2

theorem index_search_length (armazenados : List (List ℝ)) (consulta : List ℝ) (k : ℕ) :
    (index_search armazenados consulta k).length = min k armazenados.length := by
  unfold index_search
  simp [List.length_take]

theorem index_search_pairwise (armazenados : List (List ℝ)) (consulta : List ℝ) (k : ℕ) :
    (index_search armazenados consulta k).Pairwise
      (fun a b => b.2 < a.2 ∨ (a.2 = b.2 ∧ a.1 < b.1)) := by
  unfold index_search
  have hsorted := List.sorted_mergeSort precede_trans precede_total
    ((armazenados.map (fun v => dot consulta v)).enum)
  have hperm := List.mergeSort_perm ((armazenados.map (fun v => dot consulta v)).enum) precede
  have hnodup : (((armazenados.map (fun v => dot consulta v)).enum.mergeSort precede).map
      Prod.fst).Nodup := by
    refine (hperm.map Prod.fst).nodup_iff.mpr ?_
    rw [List.enum_map_fst]
    exact List.nodup_range _
  have hne := List.pairwise_map.mp hnodup
  refine ((hsorted.and hne).imp ?_).sublist (List.take_sublist _ _)
  intro a b hab
  rcases hab with ⟨hab, hne'⟩
  simp only [precede, decide_eq_true_eq] at hab
  rcases hab with h | ⟨h, h'⟩
  · exact Or.inl h
  · exact Or.inr ⟨h, lt_of_le_of_ne h' hne'⟩

theorem index_search_mem (armazenados : List (List ℝ)) (consulta : List ℝ) (k : ℕ)
    (p : ℕ × ℝ) (hp : p ∈ index_search armazenados consulta k) :
    ∃ v, armazenados[p.1]? = some v ∧ p.2 = dot consulta v := by
  obtain ⟨i, x⟩ := p
  unfold index_search at hp
  have h1 : (i, x) ∈ (armazenados.map (fun v => dot consulta v)).enum :=
    ((List.mergeSort_perm _ precede).mem_iff).mp (List.mem_of_mem_take hp)
  have h2 := List.mem_enum_iff_getElem?.mp h1
  rw [List.getElem?_map] at h2
  rcases Option.map_eq_some'.mp h2 with ⟨v, hv, hx⟩
  exact ⟨v, hv, hx.symm⟩

theorem index_search_map_fst_perm (armazenados : List (List ℝ)) (consulta : List ℝ)
    (k : ℕ) (hk : armazenados.length ≤ k) :
    List.Perm ((index_search armazenados consulta k).map Prod.fst)
      (List.range armazenados.length) := by
  unfold index_search
  rw [List.take_of_length_le (by simp [hk])]
  have hperm := (List.mergeSort_perm ((armazenados.map (fun v => dot consulta v)).enum)
    precede).map Prod.fst
  rw [List.enum_map_fst] at hperm
  simpa using hperm

/-! Claim theorems about the search modes. -/

/-- C1: for every collection and every k at least 1, top-k search over the
inner-product index built from the collection returns exactly min(k, N)
results, sorted in descending order of score with equal scores broken by
the insertion order of the stored vectors. -/
theorem buscar_similares_topk (m : List (List ℝ)) (encode : List Char → List ℝ)
    (query : List Char) (k : ℕ) (hk : 1 ≤ k) :
    (buscar_similares encode query (criar_indice_faiss m) k).length = min k m.length ∧
    (buscar_similares encode query (criar_indice_faiss m) k).Pairwise
      (fun a b => b.2 < a.2 ∨ (a.2 = b.2 ∧ a.1 < b.1)) := by
  constructor
  · unfold buscar_similares buscar_por_vetor
    rw [index_search_length]
    simp [criar_indice_faiss, normalizar_embeddings]
  · exact index_search_pairwise _ _ _

/-- Witness for C1 at k = 2 over a concrete three-vector collection. -/
theorem buscar_similares_topk_witness :
    1 ≤ 2 ∧
    ((buscar_similares (fun _ => [1, 0]) ['a']
        (criar_indice_faiss [[1, 0], [0, 1], [1, 1]]) 2).length
        = min 2 ([[(1 : ℝ), 0], [0, 1], [1, 1]] : List (List ℝ)).length ∧
     (buscar_similares (fun _ => [1, 0]) ['a']
        (criar_indice_faiss [[1, 0], [0, 1], [1, 1]]) 2).Pairwise
        (fun a b => b.2 < a.2 ∨ (a.2 = b.2 ∧ a.1 < b.1))) :=
  ⟨by norm_num,
   buscar_similares_topk [[1, 0], [0, 1], [1, 1]] (fun _ => [1, 0]) ['a'] 2 (by norm_num)⟩

/-- C8: full-ranking mode — modo_filmes searches with k equal to the number
of titles, so under the transport invariant that the titles array is
parallel to the embedding matrix, a non-blank query yields a ranking whose
indices are a permutation of 0..N-1, every collection index exactly once. -/
theorem modo_filmes_permutacao (encode : List Char → List ℝ) (dados : DadosFilmes)
    (entrada : List Char) (h1 : dados.titulos.length = dados.embeddings.length)
    (h2 : strip entrada ≠ []) :
    ∃ resultado, modo_filmes encode dados entrada = some resultado ∧
      List.Perm (resultado.map Prod.fst) (List.range dados.embeddings.length) := by
  simp only [modo_filmes]
  rw [if_neg h2]
  refine ⟨_, rfl, ?_⟩
  unfold buscar_similares buscar_por_vetor
  have hperm := index_search_map_fst_perm (criar_indice_faiss dados.embeddings)
    (normalizar_linha (encode (strip entrada))) dados.titulos.length
    (by simp [criar_indice_faiss, normalizar_embeddings, h1])
  simpa [criar_indice_faiss, normalizar_embeddings] using hperm

/-- Witness for C8 at a concrete two-film collection and a non-blank query. -/
theorem modo_filmes_permutacao_witness :
    ((⟨[[1, 0], [0, 1]], [['t'], ['u']], [[], []]⟩ : DadosFilmes).titulos.length
        = (⟨[[1, 0], [0, 1]], [['t'], ['u']], [[], []]⟩ : DadosFilmes).embeddings.length ∧
     strip ['a'] ≠ []) ∧
    ∃ resultado,
      modo_filmes (fun _ => [2, 1]) ⟨[[1, 0], [0, 1]], [['t'], ['u']], [[], []]⟩ ['a']
        = some resultado ∧
      List.Perm (resultado.map Prod.fst)
        (List.range (⟨[[1, 0], [0, 1]], [['t'], ['u']], [[], []]⟩ : DadosFilmes).embeddings.length) :=
  ⟨⟨by decide, by decide⟩,
   modo_filmes_permutacao (fun _ => [2, 1]) ⟨[[1, 0], [0, 1]], [['t'], ['u']], [[], []]⟩ ['a']
     (by decide) (by decide)⟩

/-- C10: the query embedding is normalized to unit norm before the index is
searched, so scaling a nonzero query embedding by any positive constant
changes neither the returned indices nor the returned scores, and every
returned score is exactly the cosine similarity between the query embedding
and the stored vector the result points at. -/
theorem busca_invariante_por_escala (m : List (List ℝ)) (qe : List ℝ) (c : ℝ) (k : ℕ)
    (hc : 0 < c) (hq : norma2 qe ≠ 0) :
    buscar_por_vetor (qe.map (fun x => c * x)) (criar_indice_faiss m) k
      = buscar_por_vetor qe (criar_indice_faiss m) k ∧
    ∀ p ∈ buscar_por_vetor qe (criar_indice_faiss m) k,
      ∃ v, m[p.1]? = some v ∧ p.2 = calcular_similaridade_cosseno qe v := by
  constructor
  · unfold buscar_por_vetor
    rw [normalizar_linha_map_mul qe c hc]
  · intro p hp
    unfold buscar_por_vetor at hp
    obtain ⟨w, hw, hscore⟩ := index_search_mem _ _ _ p hp
    rw [criar_indice_faiss, normalizar_embeddings, List.getElem?_map] at hw
    cases hm : m[p.1]? with
    | none => rw [hm] at hw; simp at hw
    | some v =>
      rw [hm] at hw
      simp only [Option.map_some', Option.some.injEq] at hw
      refine ⟨v, rfl, ?_⟩
      rw [hscore, ← hw]
      rfl

/-- Witness for C10 at the concrete query embedding (3, 4), scale 2 and a
one-vector collection. -/
theorem busca_invariante_por_escala_witness :
    ((0 : ℝ) < 2 ∧ norma2 [(3 : ℝ), 4] ≠ 0) ∧
    (buscar_por_vetor ([(3 : ℝ), 4].map (fun x => 2 * x)) (criar_indice_faiss [[1, 0]]) 1
        = buscar_por_vetor [(3 : ℝ), 4] (criar_indice_faiss [[1, 0]]) 1 ∧
     ∀ p ∈ buscar_por_vetor [(3 : ℝ), 4] (criar_indice_faiss [[1, 0]]) 1,
       ∃ v, ([[(1 : ℝ), 0]] : List (List ℝ))[p.1]? = some v ∧
         p.2 = calcular_similaridade_cosseno [(3 : ℝ), 4] v) :=
  ⟨⟨by norm_num, by
      unfold norma2
      rw [show somaQuadrados [(3 : ℝ), 4] = 25 by norm_num [somaQuadrados]]
      positivity⟩,
   busca_invariante_por_escala [[1, 0]] [(3 : ℝ), 4] 2 1 (by norm_num) (by
      unfold norma2
      rw [show somaQuadrados [(3 : ℝ), 4] = 25 by norm_num [somaQuadrados]]
      positivity)⟩

/-! Helper lemmas about the anomaly scan over all ordered pairs. -/

theorem soma_filter_range (f : ℕ → ℝ) (i : ℕ) : ∀ N : ℕ,
    ((((List.range N).filter (fun j => i ≠ j)).map f).sum)
      = ∑ j ∈ (Finset.range N).erase i, f j := by
  intro N
  induction N with
  | zero => simp
  | succ M ih =>
    rw [List.range_succ, List.filter_append, List.map_append, List.sum_append,
      Finset.range_succ]
    by_cases hiM : i = M
    · subst hiM
      rw [Finset.erase_insert (by simp)]
      have h1 : ([i].filter (fun j => i ≠ j)) = [] := by simp
      rw [h1]
      simp only [List.map_nil, List.sum_nil, add_zero, ih]
      rw [Finset.erase_eq_of_not_mem (by simp)]
    · have h1 : ([M].filter (fun j => i ≠ j)) = [M] := by simp [hiM]
      rw [h1, Finset.erase_insert_of_ne (Ne.symm hiM), Finset.sum_insert (by simp)]
      simp only [List.map_cons, List.map_nil, List.sum_cons, List.sum_nil, add_zero, ih]
      ring

theorem comprimento_filter_range (i : ℕ) : ∀ N : ℕ, i < N →
    (((List.range N).filter (fun j => i ≠ j)).length) = N - 1 := by
  intro N
  induction N with
  | zero => intro h; exact absurd h (Nat.not_lt_zero i)
  | succ M ih =>
    intro h
    rw [List.range_succ, List.filter_append, List.length_append]
    by_cases hiM : i = M
    · subst hiM
      have h1 : ([i].filter (fun j => i ≠ j)).length = 0 := by simp
      have h2 : ((List.range i).filter (fun j => i ≠ j)) = List.range i := by
        refine List.filter_eq_self.mpr ?_
        intro a ha
        simpa using (List.mem_range.mp ha).ne'
      rw [h1, h2]
      simp
    · have h1 : ([M].filter (fun j => i ≠ j)).length = 1 := by simp [hiM]
      rw [h1, ih (by omega)]
      omega

theorem scores_medios_getElem (e : List (List ℝ)) (i : ℕ) (hi : i < e.length) :
    (scores_medios e)[i]? = some (i, media (similaridades_item e i)) := by
  unfold scores_medios
  rw [List.getElem?_map, List.getElem?_range hi]
  rfl

theorem scores_ordenados_pairwise (e : List (List ℝ)) :
    (scores_ordenados e).Pairwise (fun a b => a.2 ≤ b.2) := by
  have hs := List.sorted_mergeSort menorScore_trans menorScore_total (scores_medios e)
  exact hs.imp (by intro a b hab; simpa [menorScore] using hab)

/-! Claim theorems about anomaly mode. -/

/-- C2: with at least two items, anomaly mode gives every item i the mean
of its cosine similarities against the N - 1 other items (the self pair
excluded), and ranks all items by sorting these pairs in ascending order
of mean similarity. -/
theorem modo_anomalias_media_e_ordem (e : List (List ℝ)) (h : 2 ≤ e.length) :
    (∀ i < e.length, (similaridades_item e i).length = e.length - 1) ∧
    (∀ i < e.length, (scores_medios e)[i]? = some (i,
       (∑ j ∈ (Finset.range e.length).erase i,
          calcular_similaridade_cosseno (e.getD i []) (e.getD j []))
         / ((e.length - 1 : ℕ) : ℝ))) ∧
    List.Perm (scores_ordenados e) (scores_medios e) ∧
    (scores_ordenados e).Pairwise (fun a b => a.2 ≤ b.2) := by
  have hlen : ∀ i, i < e.length → (similaridades_item e i).length = e.length - 1 := by
    intro i hi
    unfold similaridades_item
    rw [List.length_map]
    exact comprimento_filter_range i e.length hi
  refine ⟨hlen, ?_, List.mergeSort_perm _ _, scores_ordenados_pairwise e⟩
  intro i hi
  rw [scores_medios_getElem e i hi, Option.some.injEq, Prod.mk.injEq]
  refine ⟨rfl, ?_⟩
  have hsum : (similaridades_item e i).sum
      = ∑ j ∈ (Finset.range e.length).erase i,
          calcular_similaridade_cosseno (e.getD i []) (e.getD j []) := by
    unfold similaridades_item
    exact soma_filter_range _ i e.length
  unfold media
  rw [hsum, hlen i hi]

/-- Witness for C2 at a concrete two-item collection. -/
theorem modo_anomalias_media_e_ordem_witness :
    2 ≤ ([[(1 : ℝ), 0], [0, 1]] : List (List ℝ)).length ∧
    ((∀ i < ([[(1 : ℝ), 0], [0, 1]] : List (List ℝ)).length,
        (similaridades_item [[(1 : ℝ), 0], [0, 1]] i).length
          = ([[(1 : ℝ), 0], [0, 1]] : List (List ℝ)).length - 1) ∧
     (∀ i < ([[(1 : ℝ), 0], [0, 1]] : List (List ℝ)).length,
        (scores_medios [[(1 : ℝ), 0], [0, 1]])[i]? = some (i,
          (∑ j ∈ (Finset.range ([[(1 : ℝ), 0], [0, 1]] : List (List ℝ)).length).erase i,
             calcular_similaridade_cosseno
               (([[(1 : ℝ), 0], [0, 1]] : List (List ℝ)).getD i [])
               (([[(1 : ℝ), 0], [0, 1]] : List (List ℝ)).getD j []))
            / ((([[(1 : ℝ), 0], [0, 1]] : List (List ℝ)).length - 1 : ℕ) : ℝ))) ∧
     List.Perm (scores_ordenados [[(1 : ℝ), 0], [0, 1]])
        (scores_medios [[(1 : ℝ), 0], [0, 1]]) ∧
     (scores_ordenados [[(1 : ℝ), 0], [0, 1]]).Pairwise (fun a b => a.2 ≤ b.2)) :=
  ⟨by decide, modo_anomalias_media_e_ordem [[(1 : ℝ), 0], [0, 1]] (by decide)⟩

/-- C3: with more than three items, anomaly mode returns exactly the 3
items of lowest mean similarity (the printed header advertising a top 5
notwithstanding): the returned list has length 3, together with the
dropped remainder it is a permutation of all scored items, and every
returned score is at most every unreturned score. -/
theorem modo_anomalias_tres_menores (e : List (List ℝ)) (h : 3 < e.length) :
    (modo_anomalias e).length = 3 ∧
    List.Perm (modo_anomalias e ++ (scores_ordenados e).drop 3) (scores_medios e) ∧
    ∀ a ∈ modo_anomalias e, ∀ b ∈ (scores_ordenados e).drop 3, a.2 ≤ b.2 := by
  have hlen : (scores_ordenados e).length = e.length := by
    unfold scores_ordenados scores_medios
    simp
  refine ⟨?_, ?_, ?_⟩
  · unfold modo_anomalias
    rw [List.length_take, hlen]
    omega
  · unfold modo_anomalias
    rw [List.take_append_drop]
    exact List.mergeSort_perm _ _
  · have hsplit : ((scores_ordenados e).take 3 ++ (scores_ordenados e).drop 3).Pairwise
        (fun a b : ℕ × ℝ => a.2 ≤ b.2) := by
      rw [List.take_append_drop]
      exact scores_ordenados_pairwise e
    intro a ha b hb
    unfold modo_anomalias at ha
    exact (List.pairwise_append.mp hsplit).2.2 a ha b hb

/-- Witness for C3 at a concrete four-item collection. -/
theorem modo_anomalias_tres_menores_witness :
    3 < ([[(1 : ℝ), 0], [0, 1], [1, 1], [2, 0]] : List (List ℝ)).length ∧
    ((modo_anomalias [[(1 : ℝ), 0], [0, 1], [1, 1], [2, 0]]).length = 3 ∧
     List.Perm (modo_anomalias [[(1 : ℝ), 0], [0, 1], [1, 1], [2, 0]]
          ++ (scores_ordenados [[(1 : ℝ), 0], [0, 1], [1, 1], [2, 0]]).drop 3)
        (scores_medios [[(1 : ℝ), 0], [0, 1], [1, 1], [2, 0]]) ∧
     ∀ a ∈ modo_anomalias [[(1 : ℝ), 0], [0, 1], [1, 1], [2, 0]],
       ∀ b ∈ (scores_ordenados [[(1 : ℝ), 0], [0, 1], [1, 1], [2, 0]]).drop 3,
         a.2 ≤ b.2) :=
  ⟨by decide, modo_anomalias_tres_menores [[(1 : ℝ), 0], [0, 1], [1, 1], [2, 0]] (by decide)⟩

/-! Claim theorem about normalization of non-degenerate vectors. -/

theorem norma2_tres_quatro : norma2 [(3 : ℝ), 4] = 5 := by
  unfold norma2
  rw [show somaQuadrados [(3 : ℝ), 4] = 25 by norm_num [somaQuadrados],
    show (25 : ℝ) = 5 ^ 2 by norm_num, Real.sqrt_sq (by norm_num)]

/-- C4: normalization of any vector of nonzero L2 norm divides the vector
by its norm and produces a unit vector; over a collection of such vectors
every row of the normalized matrix has L2 norm exactly 1. -/
theorem normalizacao_unitaria (v : List ℝ) (m : List (List ℝ))
    (hv : norma2 v ≠ 0) (hm : ∀ w ∈ m, norma2 w ≠ 0) :
    norma2 (normalizar_linha v) = 1 ∧
    normalizar_linha v = v.map (fun x => x / norma2 v) ∧
    ∀ w ∈ normalizar_embeddings m, norma2 w = 1 := by
  refine ⟨norma2_normalizar_linha v hv, rfl, ?_⟩
  intro w hw
  unfold normalizar_embeddings at hw
  rcases List.mem_map.mp hw with ⟨u, hu, rfl⟩
  exact norma2_normalizar_linha u (hm u hu)

/-- Witness for C4 at the concrete vector (3, 4), of norm 5. -/
theorem normalizacao_unitaria_witness :
    (norma2 [(3 : ℝ), 4] ≠ 0 ∧ ∀ w ∈ ([[(3 : ℝ), 4]] : List (List ℝ)), norma2 w ≠ 0) ∧
    (norma2 (normalizar_linha [(3 : ℝ), 4]) = 1 ∧
     normalizar_linha [(3 : ℝ), 4] = [(3 : ℝ), 4].map (fun x => x / norma2 [(3 : ℝ), 4]) ∧
     ∀ w ∈ normalizar_embeddings [[(3 : ℝ), 4]], norma2 w = 1) := by
  have hv : norma2 [(3 : ℝ), 4] ≠ 0 := by rw [norma2_tres_quatro]; norm_num
  have hm : ∀ w ∈ ([[(3 : ℝ), 4]] : List (List ℝ)), norma2 w ≠ 0 := by
    intro w hw
    rw [List.mem_singleton] at hw
    subst hw
    exact hv
  exact ⟨⟨hv, hm⟩, normalizacao_unitaria [(3 : ℝ), 4] [[(3 : ℝ), 4]] hv hm⟩
